import Mathlib

/-!
Verification of the ZenML metadata-store query layer
(`zenml/core/metadata/metadata_wrapper.py`, class `ZenMLMetadataStore`).

The backend (`ml_metadata.metadata_store.MetadataStore`) is an external
collaborator; following the spec's capability contract it is embedded as a
record of query functions (`Store`).  Every operation of the wrapper class is
translated line by line on top of that interface.  Python exceptions are
embedded as an explicit error type `PyError` threaded through `Except`; the
unbounded recursion of the cache-chain tracer is embedded with an explicit
fuel parameter, where a result of `none` means the recursion has not
terminated within the given number of hops.
-/

/-- A metadata context record: opaque id, name, and string-valued properties
(`run_id`, `pipeline_name`, ...).  The wrapper never reads the context's type
tag from the record itself, so it is not part of the embedding. -/
structure Context where
  id : Nat
  name : String
  properties : List (String × String)
deriving DecidableEq, Repr

/-- An execution record: opaque id and string-valued properties
(`component_id`, `state`, ...). -/
structure Execution where
  id : Nat
  properties : List (String × String)
deriving DecidableEq, Repr

/-- An artifact record: opaque id and a uri. -/
structure Artifact where
  id : Nat
  uri : String
deriving DecidableEq, Repr

/-- An event edge between an execution and an artifact; `type = 4` is the
output channel (`MAJOR Assumptions: 4 means its output channel`). -/
structure Event where
  type : Nat
  artifact_id : Nat
  execution_id : Nat
deriving DecidableEq, Repr

/-- The Python exceptions the wrapper code can actually raise, plus
`notFound`, which is modelled from the spec's error taxonomy (section 7
names a `NotFound` error kind) and is never produced by the source code. -/
inductive PyError where
  /-- `KeyError` from a missing key in an entity's property mapping. -/
  | keyError : String → PyError
  /-- `AttributeError` from dereferencing `None` (e.g. `.id` on a failed
  context lookup, or passing `None` as an execution to the tracer). -/
  | attributeError : PyError
  /-- `AssertionError` from a failed `assert` statement. -/
  | assertionError : PyError
  /-- `raise Exception(msg)`. -/
  | exceptionMsg : String → PyError
  /-- `UnboundLocalError`: a local variable referenced before assignment. -/
  | unboundLocalError : String → PyError
  /-- `IndexError` from indexing `[0]` or `[1]` into a too-short list. -/
  | indexError : PyError
  /-- `TypeError` from passing an integer where the backend expects a
  string-typed protobuf field. -/
  | typeError : PyError
  /-- Modelled from the spec: the `NotFound` error kind of the spec's error
  taxonomy.  No code path in the source raises it. -/
  | notFound : PyError
deriving DecidableEq, Repr

instance {ε α : Type} [DecidableEq ε] [DecidableEq α] : DecidableEq (Except ε α) :=
  fun a b =>
    match a, b with
    | .ok x, .ok y =>
      if h : x = y then isTrue (by rw [h])
      else isFalse (fun hc => h (by cases hc; rfl))
    | .error x, .error y =>
      if h : x = y then isTrue (by rw [h])
      else isFalse (fun hc => h (by cases hc; rfl))
    | .ok _, .error _ => isFalse (fun hc => Except.noConfusion hc)
    | .error _, .ok _ => isFalse (fun hc => Except.noConfusion hc)

/-- The backend query interface (`self.store`), the capability contract the
wrapper code consumes: all lookups ml-metadata's `MetadataStore` offers to
this file's code.  A lookup by (type, name) yields `none` where the Python
client returns `None`. -/
structure Store where
  get_contexts : List Context
  get_context_by_type_and_name : String → String → Option Context
  get_executions : List Execution
  get_executions_by_context : Nat → List Execution
  get_executions_by_id : List Nat → List Execution
  get_events_by_execution_ids : List Nat → List Event
  get_events_by_artifact_ids : List Nat → List Event
  get_artifacts_by_id : List Nat → List Artifact
  get_contexts_by_execution : Nat → List Context

/-- `e.properties[k].string_value`: a missing key raises `KeyError`. -/
def getProp (e : Execution) (k : String) : Except PyError String :=
  match e.properties.lookup k with
  | some v => .ok v
  | none => .error (.keyError k)

/-- Python `dict` update: a later binding for an existing key overwrites the
value in place, a new key is appended (insertion order preserved). -/
def dictInsert (d : List (String × String)) (k v : String) : List (String × String) :=
  if d.any (fun p => p.1 == k) then
    d.map (fun p => if p.1 = k then (k, v) else p)
  else
    d ++ [(k, v)]

/-- The Python dict built by a comprehension over a list of key/value pairs,
processed left to right (last write wins per key). -/
def dictOfPairs (ps : List (String × String)) : List (String × String) :=
  ps.foldl (fun d p => dictInsert d p.1 p.2) []

/-- `get_pipeline_context`: `store.get_context_by_type_and_name(
type_name='pipeline', context_name=pipeline_name)`. -/
def get_pipeline_context (s : Store) (pipeline_name : String) : Option Context :=
  s.get_context_by_type_and_name "pipeline" pipeline_name

/-- `get_pipeline_executions`: resolves the pipeline context and lists its
executions; a failed context lookup makes `c.id` raise `AttributeError`. -/
def get_pipeline_executions (s : Store) (pipeline_name : String) :
    Except PyError (List Execution) :=
  match get_pipeline_context s pipeline_name with
  | none => .error .attributeError
  | some c => .ok (s.get_executions_by_context c.id)

/-- The key/value pairs of `get_components_status`'s dict comprehension
`{e.properties['component_id'].string_value:
   e.properties['state'].string_value for e in pipeline_executions}`,
in execution order, before dict deduplication. -/
def components_status_pairs : List Execution → Except PyError (List (String × String))
  | [] => .ok []
  | e :: rest => do
    let cid ← getProp e "component_id"
    let st ← getProp e "state"
    let r ← components_status_pairs rest
    .ok ((cid, st) :: r)

/-- `get_components_status`: projects each pipeline execution's
`component_id` and `state` properties into a dict. -/
def get_components_status (s : Store) (pipeline_name : String) :
    Except PyError (List (String × String)) := do
  let es ← get_pipeline_executions s pipeline_name
  let ps ← components_status_pairs es
  .ok (dictOfPairs ps)

/-- `get_pipeline_status`: the source iterates over the components-status
dict — which yields its KEYS (the component ids), not the states — and
returns `Running` on the first key with
`status != 'complete' or status != 'cached'`, else `Succeeded`.
`PipelineStatusTypes.Running.name` and `.Succeeded.name` are modelled from
the spec (`Running | Succeeded`); the enum module itself is not in scope. -/
def get_pipeline_status (s : Store) (pipeline_name : String) :
    Except PyError String := do
  let components_status ← get_components_status s pipeline_name
  if components_status.any (fun kv => !(kv.1 == "complete") || !(kv.1 == "cached")) then
    .ok "Running"
  else
    .ok "Succeeded"

/-- The output-artifact ids an execution's events yield, in insertion order:
`[e.artifact_id for e in events if e.type == 4]` over
`store.get_events_by_execution_ids([execution.id])`. -/
def output_artifact_ids (s : Store) (execution : Execution) : List Nat :=
  ((s.get_events_by_execution_ids [execution.id]).filter
    (fun ev => ev.type == 4)).map (fun ev => ev.artifact_id)

/-- `find_original_context_and_artifacts_from_exec`, the cache-chain tracer.
The Python function recurses without any depth or visited-set bound; the
embedding makes the hop count explicit as fuel, and a result of `none` means
the walk is still recursing after that many hops.  Inside one hop:
collect the output artifact ids; `artifact_id` is the LAST collected id and
is an unassigned local when no output event exists; a `cached` state fetches
the events referencing `artifact_id` and recurses into the execution of the
first output-type one (`store.get_executions_by_id([e.execution_id])[0]`
raises `IndexError` on an empty result, and with no output-type event the
`for` loop falls through to an implicit `None`); any other state returns the
first owning context's name and the artifact records of all collected ids. -/
def find_original_context_and_artifacts_from_exec (s : Store) :
    Nat → Execution → Option (Except PyError (Option (String × List Artifact)))
  | 0, _ => none
  | fuel + 1, execution =>
    let artifacts_ids := output_artifact_ids s execution
    match getProp execution "state" with
    | .error err => some (.error err)
    | .ok st =>
      if st = "cached" then
        match artifacts_ids.getLast? with
        | none => some (.error (.unboundLocalError "artifact_id"))
        | some artifact_id =>
          match (s.get_events_by_artifact_ids [artifact_id]).find?
              (fun ev => ev.type == 4) with
          | none => some (.ok none)
          | some ev =>
            match (s.get_executions_by_id [ev.execution_id]).head? with
            | none => some (.error .indexError)
            | some ex => find_original_context_and_artifacts_from_exec s fuel ex
      else
        match (s.get_contexts_by_execution execution.id).head? with
        | none => some (.error .indexError)
        | some c => some (.ok (some (c.name, s.get_artifacts_by_id artifacts_ids)))

/-- The cached branch of the tracer after the provenance artifact id has
been chosen (the tail of `find_original_context_and_artifacts_from_exec`'s
`cached` case, named so that which artifact id the walk follows can be
stated). -/
def follow_output_artifact (s : Store) (fuel artifact_id : Nat) :
    Option (Except PyError (Option (String × List Artifact))) :=
  match (s.get_events_by_artifact_ids [artifact_id]).find?
      (fun ev => ev.type == 4) with
  | none => some (.ok none)
  | some ev =>
    match (s.get_executions_by_id [ev.execution_id]).head? with
    | none => some (.error .indexError)
    | some ex => find_original_context_and_artifacts_from_exec s fuel ex

/-- Python's `str.split(sep)` for a one-character separator, over the
character list: an empty string yields `[[]]`, each separator occurrence
starts a new group. -/
def split_char : List Char → Char → List (List Char)
  | [], _ => [[]]
  | c :: rest, sep =>
    match split_char rest sep with
    | [] => if c == sep then [[], []] else [[c]]
    | g :: gs => if c == sep then [] :: g :: gs else (c :: g) :: gs

/-- `full.split(sep)` of Python, embedded structurally (Lean's own
`String.splitOn` has the same value on one-character separators but is not
defined by structural recursion). -/
def split_on_char (full : String) (sep : Char) : List String :=
  (split_char full.data sep).map (fun cs => String.mk cs)

/-- The per-execution test of `get_execution_by_component_type`'s loop body:
`full = e.properties['component_id'].string_value;
instance_name = full.split('.')[1]; instance_name == component_id`, with the
body's two failure modes (`KeyError` on a missing property, `IndexError` on
a missing second segment). -/
def component_type_match (e : Execution) (component_id : String) :
    Except PyError Bool :=
  match e.properties.lookup "component_id" with
  | none => .error (.keyError "component_id")
  | some full =>
    match (split_on_char full '.').get? 1 with
    | none => .error .indexError
    | some instance_name => .ok (instance_name == component_id)

/-- The matching loop of `get_execution_by_component_type`: the first
execution whose loop-body test (`component_type_match`) succeeds; the loop
falls through to an implicit `None` when no execution matches. -/
def find_exec_by_component_type :
    List Execution → String → Except PyError (Option Execution)
  | [], _ => .ok none
  | e :: rest, component_id =>
    match component_type_match e component_id with
    | .error err => .error err
    | .ok true => .ok (some e)
    | .ok false => find_exec_by_component_type rest component_id

/-- `get_execution_by_component_type(context, component_id)`: resolve the
run context by name (`.id` on a failed lookup raises `AttributeError`), then
scan its executions for the first one matching the component type. -/
def get_execution_by_component_type (s : Store) (context component_id : String) :
    Except PyError (Option Execution) :=
  match s.get_context_by_type_and_name "run" context with
  | none => .error .attributeError
  | some c => find_exec_by_component_type (s.get_executions_by_context c.id) component_id

/-- `find_original_context_and_artifacts_from_context(context,
component_type)`: look up the execution by component type within the run
context and delegate to the tracer.  When no execution matched, the Python
code passes `None` to the tracer, whose first statement dereferences
`execution.id` and raises `AttributeError`. -/
def find_original_context_and_artifacts_from_context (s : Store) (fuel : Nat)
    (context component_type : String) :
    Option (Except PyError (Option (String × List Artifact))) :=
  match get_execution_by_component_type s context component_type with
  | .error err => some (.error err)
  | .ok none => some (.error .attributeError)
  | .ok (some e) => find_original_context_and_artifacts_from_exec s fuel e

/-- The component ids of `list_registered_components` before set
deduplication: `e.properties['component_id'].string_value` for every
execution in the store, failing on the first execution missing the key. -/
def registered_component_ids : List Execution → Except PyError (List String)
  | [] => .ok []
  | e :: rest => do
    let cid ← getProp e "component_id"
    let r ← registered_component_ids rest
    .ok (cid :: r)

/-- `list_registered_components`: the set of `component_id` values over all
executions in the store (embedded as a deduplicated list; only membership in
it is ever consumed). -/
def list_registered_components (s : Store) : Except PyError (List String) := do
  let ids ← registered_component_ids s.get_executions
  .ok ids.dedup

/-- `filter_executions_by_component`: `assert component in
self.list_registered_components()`, then keep the executions whose
`component_id` equals `component`.  The successful assert guarantees every
execution carries the `component_id` property, so the subsequent filter's
property accesses cannot raise. -/
def filter_executions_by_component (s : Store) (component : String) :
    Except PyError (List Execution) := do
  let reg ← list_registered_components s
  if component ∈ reg then
    .ok (s.get_executions.filter
      (fun e => e.properties.lookup "component_id" == some component))
  else
    .error .assertionError

/-- A condition triple of `get_outcomes` / `filter_executions_by_condition`:
`{'component': ..., 'property_name': ..., 'value': ...}`. -/
structure Condition where
  component : String
  property_name : String
  value : String
deriving DecidableEq, Repr

/-- The property filter of `filter_executions_by_condition`:
`[e for e in executions if e.properties[property_name].string_value == value]`,
raising `KeyError` on the first execution missing the property. -/
def filter_by_property :
    List Execution → String → String → Except PyError (List Execution)
  | [], _, _ => .ok []
  | e :: rest, property_name, value =>
    match e.properties.lookup property_name with
    | none => .error (.keyError property_name)
    | some v => do
      let r ← filter_by_property rest property_name value
      .ok (if v = value then e :: r else r)

/-- `filter_executions_by_condition`: restrict to the condition's component,
then to the executions whose named property has the given value. -/
def filter_executions_by_condition (s : Store) (cond : Condition) :
    Except PyError (List Execution) := do
  let es ← filter_executions_by_component s cond.component
  filter_by_property es cond.property_name cond.value

/-- `map_execution_to_context`:
`[self.store.get_contexts_by_execution(e.id)[0] for e in executions]` — the
FIRST context of each execution, raising `IndexError` when an execution has
no context. -/
def map_execution_to_context (s : Store) :
    List Execution → Except PyError (List Context)
  | [] => .ok []
  | e :: rest =>
    match (s.get_contexts_by_execution e.id).head? with
    | none => .error .indexError
    | some c => do
      let r ← map_execution_to_context s rest
      .ok (c :: r)

/-- `list_contexts_by_condition`: the first context of every execution
satisfying the condition. -/
def list_contexts_by_condition (s : Store) (cond : Condition) :
    Except PyError (List Context) := do
  let es ← filter_executions_by_condition s cond
  map_execution_to_context s es

/-- The `contexts` branch of `get_outcomes`'s target resolution:
`self.store.get_context_by_type_and_name(type_name='run', context_name=c).id`
for each given name, raising `AttributeError` on a failed lookup. -/
def context_ids_by_names (s : Store) : List String → Except PyError (List Nat)
  | [] => .ok []
  | c :: rest =>
    match s.get_context_by_type_and_name "run" c with
    | none => .error .attributeError
    | some ctx => do
      let r ← context_ids_by_names s rest
      .ok (ctx.id :: r)

/-- The conditions loop of `get_outcomes` (source lines 367-372): for each
condition, keep only the target context ids that appear among the contexts
satisfying it. -/
def apply_conditions (s : Store) :
    List Condition → List Nat → Except PyError (List Nat)
  | [], target_context_ids => .ok target_context_ids
  | cond :: rest, target_context_ids => do
    let context_w_cond ← list_contexts_by_condition s cond
    let context_w_cond_ids := context_w_cond.map (fun c => c.id)
    apply_conditions s rest
      (target_context_ids.filter (fun c => context_w_cond_ids.contains c))

/-- The surviving target context ids of `get_outcomes` after selector
resolution (source lines 354-365) and the conditions loop (lines 367-372):
explicit `contexts` names, else all store contexts filtered by
`context_names` membership, else all store contexts; then the conditions
intersection. -/
def get_outcomes_targets (s : Store)
    (contexts context_names : List String) (conditions : List Condition) :
    Except PyError (List Nat) := do
  let target_context_ids ←
    if contexts ≠ [] then
      context_ids_by_names s contexts
    else if context_names ≠ [] then
      .ok ((s.get_contexts.filter
        (fun c => context_names.contains c.name)).map (fun c => c.id))
    else
      .ok (s.get_contexts.map (fun c => c.id))
  apply_conditions s conditions target_context_ids

/-- `get_outcomes`: supplying both selector kinds raises
`Exception('Cant define context id/names at the same time')` before any
backend access; otherwise the surviving context ids are computed and the
result loop runs `get_outcomes_in_context(c_id, output_components)` per id.
That call passes the INTEGER context id where `get_outcomes_in_context`
expects a context name: the backend's name lookup
(`get_context_by_type_and_name`) rejects an integer for its string
`context_name` protobuf field with a `TypeError`, so any run with a
non-empty surviving id set fails there, and only an empty surviving set
yields the (empty) result mapping. -/
def get_outcomes (s : Store)
    (contexts context_names _output_components : List String)
    (conditions : List Condition) :
    Except PyError (List (Nat × List (String × List String))) :=
  if contexts ≠ [] ∧ context_names ≠ [] then
    .error (.exceptionMsg "Cant define context id/names at the same time")
  else do
    let targets ← get_outcomes_targets s contexts context_names conditions
    match targets with
    | [] => .ok []
    | _ :: _ => .error .typeError

/-- Modelled from the spec's words (section 4.4) and the claim: the set of
contexts IN WHICH some execution of the named component has the named
property equal to the given value — a context qualifies whenever it is among
a matching execution's contexts.  Stated over the code's store interface for
comparison with `apply_conditions`, which does not compute this set. -/
def condition_holds (s : Store) (cond : Condition) (context_id : Nat) : Bool :=
  s.get_executions.any (fun e =>
    e.properties.lookup "component_id" == some cond.component &&
    e.properties.lookup cond.property_name == some cond.value &&
    (s.get_contexts_by_execution e.id).any (fun c => c.id == context_id))

/-- The association the code actually computes
(`map_execution_to_context` takes `get_contexts_by_execution(e.id)[0]`):
a context qualifies for a condition when it is the FIRST context of some
execution of the named component having the named property equal to the
given value. -/
def condition_holds_first_context (s : Store) (cond : Condition)
    (context_id : Nat) : Bool :=
  s.get_executions.any (fun e =>
    e.properties.lookup "component_id" == some cond.component &&
    e.properties.lookup cond.property_name == some cond.value &&
    (match (s.get_contexts_by_execution e.id).head? with
     | some c => c.id == context_id
     | none => false))

/-- Concrete pipeline context for the status-aggregation scenario. -/
def c2Ctx : Context := ⟨50, "pp", []⟩

/-- A single execution whose state is `complete`. -/
def c2Exec : Execution := ⟨30, [("component_id", "pkg.trainer"), ("state", "complete")]⟩

/-- A store holding one pipeline `pp` whose only component finished with
state `complete`. -/
def c2Store : Store where
  get_contexts := [c2Ctx]
  get_context_by_type_and_name := fun tn cn =>
    if tn == "pipeline" && cn == "pp" then some c2Ctx else none
  get_executions := [c2Exec]
  get_executions_by_context := fun cid => if cid == 50 then [c2Exec] else []
  get_executions_by_id := fun _ => []
  get_events_by_execution_ids := fun _ => []
  get_events_by_artifact_ids := fun _ => []
  get_artifacts_by_id := fun _ => []
  get_contexts_by_execution := fun _ => []

/-- First member of a two-element cycle of cached executions. -/
def cycExec1 : Execution := ⟨1, [("component_id", "pkg.c1"), ("state", "cached")]⟩

/-- Second member of a two-element cycle of cached executions. -/
def cycExec2 : Execution := ⟨2, [("component_id", "pkg.c2"), ("state", "cached")]⟩

/-- A store whose event graph (flat event list
`[(e2 out a1), (e1 out a2), (e1 out a1), (e2 out a2)]`) forms a cycle of two
cached executions: execution 1's traced (last) output artifact is 1, whose
first output-type event belongs to execution 2, and execution 2's traced
output artifact is 2, whose first output-type event belongs to execution 1. -/
def cycleStore : Store where
  get_contexts := []
  get_context_by_type_and_name := fun _ _ => none
  get_executions := [cycExec1, cycExec2]
  get_executions_by_context := fun _ => []
  get_executions_by_id := fun ids =>
    if ids == [1] then [cycExec1] else if ids == [2] then [cycExec2] else []
  get_events_by_execution_ids := fun ids =>
    if ids == [1] then [⟨4, 2, 1⟩, ⟨4, 1, 1⟩]
    else if ids == [2] then [⟨4, 1, 2⟩, ⟨4, 2, 2⟩] else []
  get_events_by_artifact_ids := fun ids =>
    if ids == [1] then [⟨4, 1, 2⟩, ⟨4, 1, 1⟩]
    else if ids == [2] then [⟨4, 2, 1⟩, ⟨4, 2, 2⟩] else []
  get_artifacts_by_id := fun _ => []
  get_contexts_by_execution := fun _ => []

/-- A cached execution that has no output-type event of its own. -/
def c4Exec : Execution := ⟨9, [("component_id", "pkg.x"), ("state", "cached")]⟩

/-- A store in which the cached execution 9 has a single event of input type
(type 3) and no output-type event at all. -/
def c4Store : Store where
  get_contexts := []
  get_context_by_type_and_name := fun _ _ => none
  get_executions := [c4Exec]
  get_executions_by_context := fun _ => []
  get_executions_by_id := fun ids => if ids == [9] then [c4Exec] else []
  get_events_by_execution_ids := fun ids => if ids == [9] then [⟨3, 7, 9⟩] else []
  get_events_by_artifact_ids := fun _ => []
  get_artifacts_by_id := fun _ => []
  get_contexts_by_execution := fun _ => []

/-- Run context for the component-lookup-miss scenario. -/
def c5Ctx : Context := ⟨90, "run-9", []⟩

/-- The only execution of run `run-9`; its component type is `loader`. -/
def c5Exec : Execution := ⟨20, [("component_id", "pkg.loader"), ("state", "complete")]⟩

/-- A store whose run context `run-9` holds no execution of component type
`trainer`. -/
def c5Store : Store where
  get_contexts := [c5Ctx]
  get_context_by_type_and_name := fun tn cn =>
    if tn == "run" && cn == "run-9" then some c5Ctx else none
  get_executions := [c5Exec]
  get_executions_by_context := fun cid => if cid == 90 then [c5Exec] else []
  get_executions_by_id := fun _ => []
  get_events_by_execution_ids := fun _ => []
  get_events_by_artifact_ids := fun _ => []
  get_artifacts_by_id := fun _ => []
  get_contexts_by_execution := fun _ => []

/-- The original trainer execution of run `run-41` (state `complete`). -/
def s3e0 : Execution := ⟨10, [("component_id", "pkg.trainer"), ("state", "complete")]⟩

/-- The loader execution of run `run-42`. -/
def s3e1 : Execution := ⟨11, [("component_id", "pkg.loader"), ("state", "complete")]⟩

/-- The cached trainer execution of run `run-42`. -/
def s3e2 : Execution := ⟨12, [("component_id", "pkg.trainer"), ("state", "cached")]⟩

/-- The artifact the original trainer execution produced. -/
def s3a1 : Artifact := ⟨1, "s3://artifacts/a1"⟩

/-- Context of run `run-41`. -/
def s3ctx41 : Context := ⟨41, "run-41", []⟩

/-- Context of run `run-42`. -/
def s3ctx42 : Context := ⟨42, "run-42", []⟩

/-- The spec's run-41/run-42 scenario: `run-42` holds a complete loader and
a cached trainer whose output event references artifact 1, the artifact the
complete trainer of `run-41` produced (the producing event is older, hence
first in the event list of artifact 1). -/
def s3Store : Store where
  get_contexts := [s3ctx41, s3ctx42]
  get_context_by_type_and_name := fun tn cn =>
    if tn == "run" && cn == "run-41" then some s3ctx41
    else if tn == "run" && cn == "run-42" then some s3ctx42 else none
  get_executions := [s3e0, s3e1, s3e2]
  get_executions_by_context := fun cid =>
    if cid == 41 then [s3e0] else if cid == 42 then [s3e1, s3e2] else []
  get_executions_by_id := fun ids =>
    if ids == [10] then [s3e0]
    else if ids == [11] then [s3e1]
    else if ids == [12] then [s3e2] else []
  get_events_by_execution_ids := fun ids =>
    if ids == [10] then [⟨4, 1, 10⟩]
    else if ids == [12] then [⟨4, 1, 12⟩] else []
  get_events_by_artifact_ids := fun ids =>
    if ids == [1] then [⟨4, 1, 10⟩, ⟨4, 1, 12⟩] else []
  get_artifacts_by_id := fun ids => if ids == [1] then [s3a1] else []
  get_contexts_by_execution := fun eid =>
    if eid == 10 then [s3ctx41]
    else if eid == 11 || eid == 12 then [s3ctx42] else []

/-- Context shared by the two conflicting-value executions. -/
def c7xCtx : Context := ⟨10, "run-X", []⟩

/-- Execution of component `c1` with property `p = a`. -/
def c7xE1 : Execution := ⟨1, [("component_id", "c1"), ("p", "a")]⟩

/-- Execution of component `c1` with property `p = b`. -/
def c7xE2 : Execution := ⟨2, [("component_id", "c1"), ("p", "b")]⟩

/-- A store whose single run context holds two executions of the same
component whose property `p` carries two different values. -/
def c7xStore : Store where
  get_contexts := [c7xCtx]
  get_context_by_type_and_name := fun _ _ => none
  get_executions := [c7xE1, c7xE2]
  get_executions_by_context := fun cid => if cid == 10 then [c7xE1, c7xE2] else []
  get_executions_by_id := fun _ => []
  get_events_by_execution_ids := fun _ => []
  get_events_by_artifact_ids := fun _ => []
  get_artifacts_by_id := fun _ => []
  get_contexts_by_execution := fun eid =>
    if eid == 1 || eid == 2 then [c7xCtx] else []

/-- Context `run-A`, hosting only the `p = a` execution of `c1`. -/
def c7wCtxA : Context := ⟨10, "run-A", []⟩

/-- Context `run-B`, hosting only the `p = b` execution of `c1`. -/
def c7wCtxB : Context := ⟨11, "run-B", []⟩

/-- Execution of component `c1` with `p = a`, in context `run-A`. -/
def c7wE1 : Execution := ⟨1, [("component_id", "c1"), ("p", "a")]⟩

/-- Execution of component `c1` with `p = b`, in context `run-B`. -/
def c7wE2 : Execution := ⟨2, [("component_id", "c1"), ("p", "b")]⟩

/-- A store in which each context holds at most one execution of component
`c1`, with different `p` values in different contexts. -/
def c7wStore : Store where
  get_contexts := [c7wCtxA, c7wCtxB]
  get_context_by_type_and_name := fun _ _ => none
  get_executions := [c7wE1, c7wE2]
  get_executions_by_context := fun cid =>
    if cid == 10 then [c7wE1] else if cid == 11 then [c7wE2] else []
  get_executions_by_id := fun _ => []
  get_events_by_execution_ids := fun _ => []
  get_events_by_artifact_ids := fun _ => []
  get_artifacts_by_id := fun _ => []
  get_contexts_by_execution := fun eid =>
    if eid == 1 then [c7wCtxA] else if eid == 2 then [c7wCtxB] else []

/-- First context (id 20) of the two-context execution. -/
def c7mCtxA : Context := ⟨20, "run-A2", []⟩

/-- Second context (id 21) of the two-context execution. -/
def c7mCtxB : Context := ⟨21, "run-B2", []⟩

/-- An execution of component `c1` with `p = a` that belongs to TWO
contexts, 20 first and 21 second. -/
def c7mExec : Execution := ⟨3, [("component_id", "c1"), ("p", "a")]⟩

/-- A store whose single execution of `c1` belongs to two contexts (20
first, then 21), as executions in this system do (a run context and a
pipeline context). -/
def c7mStore : Store where
  get_contexts := [c7mCtxA, c7mCtxB]
  get_context_by_type_and_name := fun _ _ => none
  get_executions := [c7mExec]
  get_executions_by_context := fun cid =>
    if cid == 20 || cid == 21 then [c7mExec] else []
  get_executions_by_id := fun _ => []
  get_events_by_execution_ids := fun _ => []
  get_events_by_artifact_ids := fun _ => []
  get_artifacts_by_id := fun _ => []
  get_contexts_by_execution := fun eid =>
    if eid == 3 then [c7mCtxA, c7mCtxB] else []

/-- A cached execution with TWO output-type events (artifacts 7 then 8). -/
def c8Exec : Execution := ⟨5, [("component_id", "pkg.m"), ("state", "cached")]⟩

/-- A store whose cached execution 5 emitted two output events, first for
artifact 7, then for artifact 8. -/
def c8Store : Store where
  get_contexts := []
  get_context_by_type_and_name := fun _ _ => none
  get_executions := [c8Exec]
  get_executions_by_context := fun _ => []
  get_executions_by_id := fun _ => []
  get_events_by_execution_ids := fun ids =>
    if ids == [5] then [⟨4, 7, 5⟩, ⟨4, 8, 5⟩] else []
  get_events_by_artifact_ids := fun _ => []
  get_artifacts_by_id := fun _ => []
  get_contexts_by_execution := fun _ => []

/-- Pipeline context for the duplicate-component-id scenario. -/
def c9Ctx : Context := ⟨50, "pp", []⟩

/-- First execution of component `pkg.a` (state `running`). -/
def c9E1 : Execution := ⟨1, [("component_id", "pkg.a"), ("state", "running")]⟩

/-- Second execution of the SAME component id `pkg.a` (state `complete`). -/
def c9E2 : Execution := ⟨2, [("component_id", "pkg.a"), ("state", "complete")]⟩

/-- A store whose pipeline `pp` lists two executions carrying the same
`component_id`. -/
def c9Store : Store where
  get_contexts := [c9Ctx]
  get_context_by_type_and_name := fun tn cn =>
    if tn == "pipeline" && cn == "pp" then some c9Ctx else none
  get_executions := [c9E1, c9E2]
  get_executions_by_context := fun cid => if cid == 50 then [c9E1, c9E2] else []
  get_executions_by_id := fun _ => []
  get_events_by_execution_ids := fun _ => []
  get_events_by_artifact_ids := fun _ => []
  get_artifacts_by_id := fun _ => []
  get_contexts_by_execution := fun _ => []

theorem except_bind_ok {α β : Type} (x : α) (f : α → Except PyError β) :
    (Except.ok x : Except PyError α) >>= f = f x := rfl

theorem except_bind_error {α β : Type} (err : PyError) (f : α → Except PyError β) :
    (Except.error err : Except PyError α) >>= f = (.error err : Except PyError β) := rfl

/-- Claim C2: the claim says `getPipelineStatus(P)` returns `Succeeded` iff
every entry of `getComponentsStatus(P)` is `complete` or `cached`.  The code
does not: its per-component check `status != 'complete' or status !=
'cached'` is a tautology (and is evaluated on the dict's keys, not its
states), so a pipeline whose only component completed — every entry
`complete` — is still reported `Running`. -/
theorem c2_pipeline_status_tautology :
    get_components_status c2Store "pp" = .ok [("pkg.trainer", "complete")] ∧
    get_pipeline_status c2Store "pp" = .ok "Running" := ⟨rfl, rfl⟩

/-- Claim C1: on a cycle of cached executions whose traced artifacts' output
events lead back into the cycle, the tracer never fails with any error at
all — for every hop bound `fuel` the walk is still recursing (`none`), i.e.
the Python original recurses forever instead of raising the `TraceError` the
claim requires. -/
theorem c1_cycle_trace_diverges :
    getProp cycExec1 "state" = .ok "cached" ∧
    getProp cycExec2 "state" = .ok "cached" ∧
    ∀ fuel : Nat,
      find_original_context_and_artifacts_from_exec cycleStore fuel cycExec1 = none ∧
      find_original_context_and_artifacts_from_exec cycleStore fuel cycExec2 = none := by
  refine ⟨rfl, rfl, ?_⟩
  intro fuel
  induction fuel with
  | zero => exact ⟨rfl, rfl⟩
  | succ n ih =>
    have h1 : find_original_context_and_artifacts_from_exec cycleStore (n + 1) cycExec1 =
        find_original_context_and_artifacts_from_exec cycleStore n cycExec2 := rfl
    have h2 : find_original_context_and_artifacts_from_exec cycleStore (n + 1) cycExec2 =
        find_original_context_and_artifacts_from_exec cycleStore n cycExec1 := rfl
    exact ⟨h1.trans ih.2, h2.trans ih.1⟩

/-- Claim C4: a cached execution with no output-type event of its own makes
the tracer fail — but with `UnboundLocalError` on the local `artifact_id`
(assigned only under `if artifacts_ids:`), not with the `TraceError` the
claim requires. -/
theorem c4_missing_output_event_unbound_local :
    getProp c4Exec "state" = .ok "cached" ∧
    output_artifact_ids c4Store c4Exec = [] ∧
    ∀ fuel : Nat,
      find_original_context_and_artifacts_from_exec c4Store (fuel + 1) c4Exec =
        some (.error (.unboundLocalError "artifact_id")) :=
  ⟨rfl, rfl, fun _ => rfl⟩

/-- Claim C5, counterexample: with no execution of component type `trainer`
in run `run-9`, `find_original_context_and_artifacts_from_context` fails
with `AttributeError` (the `None` returned by the execution lookup is passed
to the tracer and dereferenced), not with the `NotFound` error the claim
states. -/
theorem c5_no_match_not_notfound_counterexample :
    find_original_context_and_artifacts_from_context c5Store 1 "run-9" "trainer" =
      some (.error .attributeError) ∧
    PyError.attributeError ≠ PyError.notFound :=
  ⟨rfl, by decide⟩

/-- Claim C7, counterexample, in two parts.  (a) Two conditions on the same
component `c1` and property `p` with the different values `a` and `b` do NOT
yield an empty context set: context 10 holds one execution of `c1` with
`p = a` and another with `p = b`, so it satisfies both conditions and
survives.  (b) The surviving set is NOT the claim's intersection either:
for an execution of `c1` with `p = a` belonging to the two contexts 20 and
21 (20 first), the claim's per-condition set — the contexts in which some
matching execution lives, `condition_holds` — keeps `[20, 21]`, while the
code keeps only `[20]`, the execution's first context. -/
theorem c7_conflicting_conditions_counterexample :
    (get_outcomes_targets c7xStore [] []
      [⟨"c1", "p", "a"⟩, ⟨"c1", "p", "b"⟩] = .ok [10] ∧
     (Except.ok [10] : Except PyError (List Nat)) ≠ .ok []) ∧
    (get_outcomes_targets c7mStore [] [] [⟨"c1", "p", "a"⟩] = .ok [20] ∧
     ((c7mStore.get_contexts.map (fun c => c.id)).filter
        (fun cid => condition_holds c7mStore ⟨"c1", "p", "a"⟩ cid)) = [20, 21] ∧
     (Except.ok [20] : Except PyError (List Nat)) ≠ .ok [20, 21]) :=
  ⟨⟨rfl, by decide⟩, ⟨rfl, by decide, by decide⟩⟩

/-- Claim C6: supplying both `contexts` and `context_names` makes
`get_outcomes` raise the usage-error exception; the result is this error for
every store whatsoever, i.e. before any backend query is consulted. -/
theorem c6_both_selectors_invalid_argument (s : Store)
    (contexts context_names output_components : List String)
    (conditions : List Condition)
    (h1 : contexts ≠ []) (h2 : context_names ≠ []) :
    get_outcomes s contexts context_names output_components conditions =
      .error (.exceptionMsg "Cant define context id/names at the same time") := by
  unfold get_outcomes
  rw [if_pos ⟨h1, h2⟩]

/-- Witness for C6 at a concrete store and concrete selector lists. -/
theorem c6_both_selectors_invalid_argument_witness :
    get_outcomes c2Store ["run-1"] ["run-2"] [] [] =
      .error (.exceptionMsg "Cant define context id/names at the same time") :=
  c6_both_selectors_invalid_argument c2Store ["run-1"] ["run-2"] [] []
    (by decide) (by decide)

/-- Claim C10: a condition naming a component with no execution anywhere in
the store fails the `assert component in self.list_registered_components()`
check, so `get_outcomes` surfaces `AssertionError` instead of an (empty)
result mapping. -/
theorem c10_unregistered_component_assertion (s : Store)
    (output_components : List String) (cond : Condition) (rest : List Condition)
    (reg : List String)
    (hreg : list_registered_components s = .ok reg)
    (hnot : cond.component ∉ reg) :
    get_outcomes s [] [] output_components (cond :: rest) = .error .assertionError := by
  have hfc : filter_executions_by_component s cond.component = .error .assertionError := by
    unfold filter_executions_by_component
    rw [hreg, except_bind_ok, if_neg hnot]
  have hlc : list_contexts_by_condition s cond = .error .assertionError := by
    unfold list_contexts_by_condition filter_executions_by_condition
    rw [hfc, except_bind_error, except_bind_error]
  have ht : get_outcomes_targets s [] [] (cond :: rest) = .error .assertionError := by
    unfold get_outcomes_targets
    rw [if_neg (fun h => h rfl), if_neg (fun h => h rfl), except_bind_ok]
    unfold apply_conditions
    rw [hlc, except_bind_error]
  unfold get_outcomes
  rw [if_neg (by simp), ht, except_bind_error]

/-- Witness for C10: component `zz` has no execution in the store, and the
call fails with `AssertionError`. -/
theorem c10_unregistered_component_assertion_witness :
    get_outcomes c7wStore [] [] [] [⟨"zz", "p", "a"⟩] = .error .assertionError :=
  c10_unregistered_component_assertion c7wStore [] ⟨"zz", "p", "a"⟩ [] ["c1"]
    (by rfl) (by decide)

theorem find_exec_cons_of_match_false (ct : String) (e : Execution)
    (rest : List Execution) (h : component_type_match e ct = .ok false) :
    find_exec_by_component_type (e :: rest) ct = find_exec_by_component_type rest ct := by
  simp only [find_exec_by_component_type, h]

theorem find_exec_cons_of_match_true (ct : String) (e : Execution)
    (rest : List Execution) (h : component_type_match e ct = .ok true) :
    find_exec_by_component_type (e :: rest) ct = .ok (some e) := by
  simp only [find_exec_by_component_type, h]

theorem find_exec_no_match (ct : String) :
    ∀ l : List Execution, (∀ x ∈ l, component_type_match x ct = .ok false) →
    find_exec_by_component_type l ct = .ok none := by
  intro l
  induction l with
  | nil => intro _; rfl
  | cons e rest ih =>
    intro h
    rw [find_exec_cons_of_match_false ct e rest (h e (List.mem_cons_self e rest))]
    exact ih (fun x hx => h x (List.mem_cons_of_mem e hx))

theorem find_exec_first_match (ct : String) (e : Execution) (post : List Execution)
    (hmatch : component_type_match e ct = .ok true) :
    ∀ pre : List Execution, (∀ x ∈ pre, component_type_match x ct = .ok false) →
    find_exec_by_component_type (pre ++ e :: post) ct = .ok (some e) := by
  intro pre
  induction pre with
  | nil => intro _; exact find_exec_cons_of_match_true ct e post hmatch
  | cons x rest ih =>
    intro h
    rw [List.cons_append,
      find_exec_cons_of_match_false ct x _ (h x (List.mem_cons_self x rest))]
    exact ih (fun y hy => h y (List.mem_cons_of_mem x hy))

/-- Claim C5, amended: within the resolved run context, if no execution's
`component_id` has the requested second dot-segment, the execution lookup
yields `None` and the delegation to the tracer dereferences it, failing with
`AttributeError` (not a `NotFound` error); if a matching execution exists,
the FIRST match in backend iteration order is the one the tracer receives. -/
theorem c5_component_lookup_behavior (s : Store) (fuel : Nat)
    (context component_type : String) (c : Context)
    (hctx : s.get_context_by_type_and_name "run" context = some c) :
    ((∀ x ∈ s.get_executions_by_context c.id,
        component_type_match x component_type = .ok false) →
      find_original_context_and_artifacts_from_context s fuel context component_type =
        some (.error .attributeError)) ∧
    (∀ pre e post, s.get_executions_by_context c.id = pre ++ e :: post →
      (∀ x ∈ pre, component_type_match x component_type = .ok false) →
      component_type_match e component_type = .ok true →
      find_original_context_and_artifacts_from_context s fuel context component_type =
        find_original_context_and_artifacts_from_exec s fuel e) := by
  constructor
  · intro hall
    unfold find_original_context_and_artifacts_from_context
      get_execution_by_component_type
    simp only [hctx]
    rw [find_exec_no_match component_type _ hall]
  · intro pre e post hsplit hpre hmatch
    unfold find_original_context_and_artifacts_from_context
      get_execution_by_component_type
    simp only [hctx, hsplit]
    rw [find_exec_first_match component_type e post hmatch pre hpre]

/-- Witness for the amended C5 at the concrete store: run `run-9` holds no
`trainer` execution, and the call fails with `AttributeError`. -/
theorem c5_component_lookup_behavior_witness :
    find_original_context_and_artifacts_from_context c5Store 3 "run-9" "trainer" =
      some (.error .attributeError) :=
  (c5_component_lookup_behavior c5Store 3 "run-9" "trainer" c5Ctx rfl).1 (by decide)

/-- Claim C8: for a cached execution, the artifact ids of its output-type
events are collected in insertion order and the walk follows exactly the
LAST collected id — the earlier collected ids have no influence on the
cached hop. -/
theorem c8_last_output_event_wins (s : Store) (fuel : Nat) (e : Execution)
    (ids : List Nat) (a : Nat)
    (hstate : getProp e "state" = .ok "cached")
    (houts : output_artifact_ids s e = ids ++ [a]) :
    find_original_context_and_artifacts_from_exec s (fuel + 1) e =
      follow_output_artifact s fuel a := by
  simp only [find_original_context_and_artifacts_from_exec, hstate, houts,
    List.getLast?_concat, follow_output_artifact, if_true]

/-- Witness for C8: execution 5 produced output events for artifacts 7 and
then 8; the trace follows artifact 8, the last one. -/
theorem c8_last_output_event_wins_witness :
    output_artifact_ids c8Store c8Exec = [7, 8] ∧
    find_original_context_and_artifacts_from_exec c8Store 2 c8Exec =
      follow_output_artifact c8Store 1 8 :=
  ⟨rfl, c8_last_output_event_wins c8Store 1 c8Exec [7] 8 rfl rfl⟩

theorem trace_cached_step (s : Store) (fuel : Nat) (e : Execution) (a : Nat)
    (ev : Event) (ex : Execution)
    (hstate : getProp e "state" = .ok "cached")
    (hlast : (output_artifact_ids s e).getLast? = some a)
    (hev : (s.get_events_by_artifact_ids [a]).find? (fun x => x.type == 4) = some ev)
    (hex : (s.get_executions_by_id [ev.execution_id]).head? = some ex) :
    find_original_context_and_artifacts_from_exec s (fuel + 1) e =
      find_original_context_and_artifacts_from_exec s fuel ex := by
  simp only [find_original_context_and_artifacts_from_exec, hstate, hlast, hev, hex,
    if_true]

theorem trace_noncached_result (s : Store) (fuel : Nat) (e : Execution)
    (st : String) (c : Context)
    (hstate : getProp e "state" = .ok st) (hne : st ≠ "cached")
    (hc : (s.get_contexts_by_execution e.id).head? = some c) :
    find_original_context_and_artifacts_from_exec s (fuel + 1) e =
      some (.ok (some (c.name, s.get_artifacts_by_id (output_artifact_ids s e)))) := by
  simp only [find_original_context_and_artifacts_from_exec, hstate, hc, if_neg hne]

/-- Claim C3: a chain of `K` cached executions, each of whose traced (last)
output artifact is the output of the previous execution (the previous
execution's output event comes first among the events referencing that
artifact), ending in a non-cached execution `e 0`, resolves with at most
`K + 1` hops of fuel to the pair (name of the first context owning `e 0`,
artifact records of `e 0`'s collected output ids); and the component-type
entry point delegating to the chain's top returns the same pair — in the
run-41/run-42 scenario, `("run-41", [a1])`, not a `run-42` result. -/
theorem c3_cache_chain_resolves (s : Store) (K : Nat) (e : Nat → Execution)
    (t : Nat → Nat) (ctxName : String) (arts : List Artifact)
    (hcached : ∀ i, 1 ≤ i → i ≤ K → getProp (e i) "state" = .ok "cached")
    (hbase : ∃ st, getProp (e 0) "state" = .ok st ∧ st ≠ "cached")
    (htraced : ∀ i, 1 ≤ i → i ≤ K →
      (output_artifact_ids s (e i)).getLast? = some (t i))
    (hprev : ∀ i, 1 ≤ i → i ≤ K → ∃ ev,
      (s.get_events_by_artifact_ids [t i]).find? (fun x => x.type == 4) = some ev ∧
      (s.get_executions_by_id [ev.execution_id]).head? = some (e (i - 1)))
    (hctx : ∃ c, (s.get_contexts_by_execution (e 0).id).head? = some c ∧
      c.name = ctxName)
    (harts : s.get_artifacts_by_id (output_artifact_ids s (e 0)) = arts) :
    (∀ i, i ≤ K →
      find_original_context_and_artifacts_from_exec s (i + 1) (e i) =
        some (.ok (some (ctxName, arts)))) ∧
    (∀ run_context component_type,
      get_execution_by_component_type s run_context component_type = .ok (some (e K)) →
      find_original_context_and_artifacts_from_context s (K + 1) run_context
        component_type = some (.ok (some (ctxName, arts)))) := by
  have main : ∀ i, i ≤ K →
      find_original_context_and_artifacts_from_exec s (i + 1) (e i) =
        some (.ok (some (ctxName, arts))) := by
    intro i
    induction i with
    | zero =>
      intro _
      obtain ⟨st, hst, hstne⟩ := hbase
      obtain ⟨c, hc, hcn⟩ := hctx
      rw [trace_noncached_result s 0 (e 0) st c hst hstne hc, hcn, harts]
    | succ n ihn =>
      intro hle
      have h1 : 1 ≤ n + 1 := Nat.succ_le_succ (Nat.zero_le n)
      have hc := hcached (n + 1) h1 hle
      have ht := htraced (n + 1) h1 hle
      obtain ⟨ev, hev, hex⟩ := hprev (n + 1) h1 hle
      have hex' : (s.get_executions_by_id [ev.execution_id]).head? = some (e n) := by
        simpa using hex
      rw [trace_cached_step s (n + 1) (e (n + 1)) (t (n + 1)) ev (e n) hc ht hev hex']
      exact ihn (Nat.le_of_succ_le hle)
  refine ⟨main, ?_⟩
  intro run_context component_type hlookup
  unfold find_original_context_and_artifacts_from_context
  rw [hlookup]
  exact main K (Nat.le_refl K)

/-- Witness for C3: in the run-41/run-42 scenario (a chain of one cached
execution), tracing the `trainer` of `run-42` resolves to
`("run-41", [artifact 1])`. -/
theorem c3_cache_chain_resolves_witness :
    find_original_context_and_artifacts_from_context s3Store 2 "run-42" "trainer" =
      some (.ok (some ("run-41", [s3a1]))) := by
  have h := c3_cache_chain_resolves s3Store 1
      (fun i => if i = 0 then s3e0 else s3e2) (fun _ => 1) "run-41" [s3a1]
      (by
        intro i h1 h2
        have hi : i = 1 := Nat.le_antisymm h2 h1
        subst hi
        decide)
      ⟨"complete", by decide, by decide⟩
      (by
        intro i h1 h2
        have hi : i = 1 := Nat.le_antisymm h2 h1
        subst hi
        decide)
      (by
        intro i h1 h2
        have hi : i = 1 := Nat.le_antisymm h2 h1
        subst hi
        exact ⟨⟨4, 1, 10⟩, by decide, by decide⟩)
      ⟨s3ctx41, by decide, by decide⟩
      (by decide)
  exact h.2 "run-42" "trainer" (by decide)

theorem any_fst_iff_mem (d : List (String × String)) (k : String) :
    d.any (fun p => p.1 == k) = true ↔ k ∈ d.map Prod.fst := by
  simp [List.any_eq_true, List.mem_map]

theorem any_fst_eq_lookup_isSome (d : List (String × String)) (k : String) :
    d.any (fun p => p.1 == k) = (d.lookup k).isSome := by
  induction d with
  | nil => rfl
  | cons p rest ih =>
    obtain ⟨pk, pv⟩ := p
    by_cases hp : pk = k
    · subst hp
      simp [List.any_cons, List.lookup_cons]
    · have h1 : (pk == k) = false := beq_eq_false_iff_ne.mpr hp
      have h2 : (k == pk) = false := beq_eq_false_iff_ne.mpr (Ne.symm hp)
      simp [List.any_cons, h1, List.lookup_cons, h2, ih]

theorem lookup_map_overwrite_self (k v : String) (d : List (String × String)) :
    (d.map (fun p => if p.1 = k then (k, v) else p)).lookup k =
      (d.lookup k).map (fun _ => v) := by
  induction d with
  | nil => rfl
  | cons p rest ih =>
    obtain ⟨pk, pv⟩ := p
    by_cases hp : pk = k
    · subst hp
      simp [List.map_cons, List.lookup_cons]
    · have h2 : (k == pk) = false := beq_eq_false_iff_ne.mpr (Ne.symm hp)
      simp [List.map_cons, hp, List.lookup_cons, h2, ih]

theorem lookup_map_overwrite_other (k v k' : String) (hk : k' ≠ k)
    (d : List (String × String)) :
    (d.map (fun p => if p.1 = k then (k, v) else p)).lookup k' = d.lookup k' := by
  induction d with
  | nil => rfl
  | cons p rest ih =>
    obtain ⟨pk, pv⟩ := p
    by_cases hp : pk = k
    · subst hp
      have h1 : (k' == pk) = false := beq_eq_false_iff_ne.mpr hk
      simp [List.map_cons, List.lookup_cons, h1, ih]
    · cases hkp : (k' == pk) with
      | true => simp [List.map_cons, hp, List.lookup_cons, hkp]
      | false => simp [List.map_cons, hp, List.lookup_cons, hkp, ih]

theorem lookup_append_single (a b : String) (d : List (String × String))
    (k' : String) :
    (d ++ [(a, b)]).lookup k' =
      match d.lookup k' with
      | some w => some w
      | none => if k' == a then some b else none := by
  induction d with
  | nil =>
    show [(a, b)].lookup k' = _
    cases hka : (k' == a) <;> simp [List.lookup_cons, hka]
  | cons p rest ih =>
    obtain ⟨pk, pv⟩ := p
    rw [List.cons_append]
    cases hkp : (k' == pk) with
    | true => simp [List.lookup_cons, hkp]
    | false => simp [List.lookup_cons, hkp, ih]

theorem dictInsert_lookup (d : List (String × String)) (k v k' : String) :
    (dictInsert d k v).lookup k' = if k' = k then some v else d.lookup k' := by
  unfold dictInsert
  by_cases hany : d.any (fun p => p.1 == k)
  · rw [if_pos hany]
    by_cases hk : k' = k
    · subst hk
      rw [lookup_map_overwrite_self, any_fst_eq_lookup_isSome] at *
      obtain ⟨w, hw⟩ := Option.isSome_iff_exists.mp hany
      simp [hw]
    · rw [lookup_map_overwrite_other k v k' hk, if_neg hk]
  · rw [if_neg hany, lookup_append_single]
    by_cases hk : k' = k
    · subst hk
      have hnone : d.lookup k' = none := by
        rw [any_fst_eq_lookup_isSome] at hany
        exact Option.not_isSome_iff_eq_none.mp hany
      simp [hnone]
    · have h1 : (k' == k) = false := beq_eq_false_iff_ne.mpr hk
      cases hd : d.lookup k' <;> simp [hd, hk, h1]

theorem foldl_dictInsert_lookup (ps : List (String × String)) :
    ∀ (d : List (String × String)) (k : String),
    (ps.foldl (fun d p => dictInsert d p.1 p.2) d).lookup k =
      match ps.reverse.lookup k with
      | some w => some w
      | none => d.lookup k := by
  induction ps with
  | nil => intro d k; rfl
  | cons p rest ih =>
    intro d k
    rw [List.foldl_cons, ih, List.reverse_cons, lookup_append_single p.1 p.2,
      dictInsert_lookup]
    cases hr : rest.reverse.lookup k with
    | some w => simp
    | none =>
      by_cases hk : k = p.1
      · simp [hk]
      · simp [hk, beq_eq_false_iff_ne.mpr hk]

theorem dictInsert_keys (d : List (String × String)) (k v : String) :
    (dictInsert d k v).map Prod.fst =
      if d.any (fun p => p.1 == k) then d.map Prod.fst
      else d.map Prod.fst ++ [k] := by
  unfold dictInsert
  by_cases hany : d.any (fun p => p.1 == k)
  · rw [if_pos hany, if_pos hany, List.map_map]
    apply List.map_congr_left
    intro p _
    by_cases hp : p.1 = k <;> simp [hp]
  · rw [if_neg hany, if_neg hany]
    simp

theorem foldl_keys_nodup (ps : List (String × String)) :
    ∀ d : List (String × String), (d.map Prod.fst).Nodup →
    (((ps.foldl (fun d p => dictInsert d p.1 p.2) d)).map Prod.fst).Nodup := by
  induction ps with
  | nil => intro d h; exact h
  | cons p rest ih =>
    intro d h
    rw [List.foldl_cons]
    apply ih
    rw [dictInsert_keys]
    by_cases hany : d.any (fun q => q.1 == p.1)
    · simpa [hany] using h
    · rw [if_neg hany]
      have hpk : p.1 ∉ d.map Prod.fst := fun hmem =>
        hany ((any_fst_iff_mem d p.1).mpr hmem)
      exact List.Nodup.append h (List.nodup_singleton _)
        (fun a ha hb => hpk (List.mem_singleton.mp hb ▸ ha))

theorem foldl_keys_mem (ps : List (String × String)) :
    ∀ (d : List (String × String)) (x : String),
    x ∈ ((ps.foldl (fun d p => dictInsert d p.1 p.2) d).map Prod.fst) ↔
      x ∈ d.map Prod.fst ∨ x ∈ ps.map Prod.fst := by
  induction ps with
  | nil => intro d x; simp
  | cons p rest ih =>
    intro d x
    rw [List.foldl_cons, ih, dictInsert_keys]
    by_cases hany : d.any (fun q => q.1 == p.1)
    · rw [if_pos hany]
      have hpk : p.1 ∈ d.map Prod.fst := (any_fst_iff_mem d p.1).mp hany
      simp only [List.map_cons, List.mem_cons]
      constructor
      · rintro (h | h)
        · exact Or.inl h
        · exact Or.inr (Or.inr h)
      · rintro (h | h | h)
        · exact Or.inl h
        · exact Or.inl (h ▸ hpk)
        · exact Or.inr h
    · rw [if_neg hany]
      simp only [List.mem_append, List.mem_singleton, List.map_cons, List.mem_cons]
      tauto

theorem foldl_length_of_nodup (ps : List (String × String)) :
    ∀ d : List (String × String), (ps.map Prod.fst).Nodup →
    (∀ x ∈ ps.map Prod.fst, x ∉ d.map Prod.fst) →
    (ps.foldl (fun d p => dictInsert d p.1 p.2) d).length = d.length + ps.length := by
  induction ps with
  | nil => intro d _ _; simp
  | cons p rest ih =>
    intro d hnd hdisj
    rw [List.foldl_cons]
    have hmap : ((p :: rest).map Prod.fst) = p.1 :: rest.map Prod.fst := rfl
    rw [hmap] at hnd hdisj
    have hp : p.1 ∉ d.map Prod.fst := hdisj p.1 (List.mem_cons_self _ _)
    have hany : ¬ d.any (fun q => q.1 == p.1) = true := fun h =>
      hp ((any_fst_iff_mem d p.1).mp h)
    have hlen : (dictInsert d p.1 p.2).length = d.length + 1 := by
      unfold dictInsert
      rw [if_neg hany]
      simp
    have hkeys : (dictInsert d p.1 p.2).map Prod.fst = d.map Prod.fst ++ [p.1] := by
      rw [dictInsert_keys, if_neg hany]
    have hnd' : (rest.map Prod.fst).Nodup := (List.nodup_cons.mp hnd).2
    have hhead : p.1 ∉ rest.map Prod.fst := (List.nodup_cons.mp hnd).1
    have hdisj' : ∀ x ∈ rest.map Prod.fst, x ∉ (dictInsert d p.1 p.2).map Prod.fst := by
      intro x hx hmem
      rw [hkeys] at hmem
      rcases List.mem_append.mp hmem with h | h
      · exact hdisj x (List.mem_cons_of_mem _ hx) h
      · exact hhead (List.mem_singleton.mp h ▸ hx)
    rw [ih (dictInsert d p.1 p.2) hnd' hdisj', hlen, List.length_cons]
    omega

theorem components_status_pairs_length (es : List Execution) :
    ∀ ps : List (String × String), components_status_pairs es = .ok ps →
    ps.length = es.length := by
  induction es with
  | nil =>
    intro ps h
    simp only [components_status_pairs, Except.ok.injEq] at h
    rw [← h]
    rfl
  | cons e rest ih =>
    intro ps h
    unfold components_status_pairs at h
    cases hc : getProp e "component_id" with
    | error err => rw [hc, except_bind_error] at h; exact absurd h (by simp)
    | ok cid =>
      rw [hc, except_bind_ok] at h
      cases hs : getProp e "state" with
      | error err => rw [hs, except_bind_error] at h; exact absurd h (by simp)
      | ok st =>
        rw [hs, except_bind_ok] at h
        cases hr : components_status_pairs rest with
        | error err => rw [hr, except_bind_error] at h; exact absurd h (by simp)
        | ok r =>
          rw [hr, except_bind_ok] at h
          simp only [Except.ok.injEq] at h
          rw [← h, List.length_cons, List.length_cons, ih r hr]

/-- Claim C9: `get_components_status` builds a Python dict from the pipeline
executions' (component_id, state) pairs: its keys are free of duplicates and
are exactly the component ids that occur, a key's value is the state of the
LAST execution (in the backend iteration order) carrying that component id,
the call succeeds (no crash) also in the duplicate case, and when all
component ids are distinct the dict has exactly one entry per execution. -/
theorem c9_components_status_entries (s : Store) (pipeline_name : String)
    (es : List Execution) (ps : List (String × String))
    (hes : get_pipeline_executions s pipeline_name = .ok es)
    (hps : components_status_pairs es = .ok ps) :
    get_components_status s pipeline_name = .ok (dictOfPairs ps) ∧
    ((dictOfPairs ps).map Prod.fst).Nodup ∧
    (∀ x, x ∈ (dictOfPairs ps).map Prod.fst ↔ x ∈ ps.map Prod.fst) ∧
    (∀ k, (dictOfPairs ps).lookup k = ps.reverse.lookup k) ∧
    ((ps.map Prod.fst).Nodup → (dictOfPairs ps).length = es.length) := by
  refine ⟨?_, ?_, ?_, ?_, ?_⟩
  · unfold get_components_status
    rw [hes, except_bind_ok, hps, except_bind_ok]
  · exact foldl_keys_nodup ps [] (by simp)
  · intro x
    unfold dictOfPairs
    rw [foldl_keys_mem]
    simp
  · intro k
    unfold dictOfPairs
    rw [foldl_dictInsert_lookup]
    cases hr : ps.reverse.lookup k <;> rfl
  · intro hnodup
    unfold dictOfPairs
    rw [foldl_length_of_nodup ps [] hnodup (by simp),
      components_status_pairs_length es ps hps]
    simp

/-- Witness for C9: two executions share the component id `pkg.a`; the
status mapping has a single entry and the LAST execution's state wins. -/
theorem c9_components_status_entries_witness :
    get_components_status c9Store "pp" = .ok [("pkg.a", "complete")] := by
  have h := c9_components_status_entries c9Store "pp" [c9E1, c9E2]
      [("pkg.a", "running"), ("pkg.a", "complete")] rfl rfl
  exact h.1.trans (by rfl)

theorem registered_component_ids_ok (l : List Execution)
    (h : ∀ e ∈ l, (e.properties.lookup "component_id").isSome) :
    ∃ ids, registered_component_ids l = .ok ids ∧
      ∀ x, x ∈ ids ↔ ∃ e ∈ l, e.properties.lookup "component_id" = some x := by
  induction l with
  | nil => exact ⟨[], rfl, by simp⟩
  | cons e rest ih =>
    obtain ⟨v, hv⟩ := Option.isSome_iff_exists.mp (h e (List.mem_cons_self e rest))
    obtain ⟨ids, hids, hmem⟩ := ih (fun x hx => h x (List.mem_cons_of_mem e hx))
    refine ⟨v :: ids, ?_, ?_⟩
    · unfold registered_component_ids
      rw [show getProp e "component_id" = .ok v from by unfold getProp; rw [hv],
        except_bind_ok, hids, except_bind_ok]
    · intro x
      simp only [List.mem_cons]
      constructor
      · rintro (rfl | hx)
        · exact ⟨e, Or.inl rfl, hv⟩
        · obtain ⟨e', he', hx'⟩ := (hmem x).mp hx
          exact ⟨e', Or.inr he', hx'⟩
      · rintro ⟨e', rfl | he'', hx'⟩
        · left
          rw [hv] at hx'
          exact (Option.some.inj hx').symm
        · right
          exact (hmem x).mpr ⟨e', he'', hx'⟩

theorem list_registered_components_ok (s : Store)
    (h : ∀ e ∈ s.get_executions, (e.properties.lookup "component_id").isSome) :
    ∃ reg, list_registered_components s = .ok reg ∧
      ∀ x, x ∈ reg ↔
        ∃ e ∈ s.get_executions, e.properties.lookup "component_id" = some x := by
  obtain ⟨ids, hids, hmem⟩ := registered_component_ids_ok s.get_executions h
  refine ⟨ids.dedup, ?_, ?_⟩
  · unfold list_registered_components
    rw [hids, except_bind_ok]
  · intro x
    rw [List.mem_dedup]
    exact hmem x

theorem filter_executions_by_component_ok (s : Store) (component : String)
    (h2 : ∀ e ∈ s.get_executions, (e.properties.lookup "component_id").isSome)
    (h1 : ∃ e ∈ s.get_executions,
      e.properties.lookup "component_id" = some component) :
    filter_executions_by_component s component =
      .ok (s.get_executions.filter
        (fun e => e.properties.lookup "component_id" == some component)) := by
  obtain ⟨reg, hreg, hmem⟩ := list_registered_components_ok s h2
  unfold filter_executions_by_component
  rw [hreg, except_bind_ok, if_pos ((hmem component).mpr h1)]

theorem filter_by_property_ok (pname value : String) :
    ∀ l : List Execution, (∀ e ∈ l, (e.properties.lookup pname).isSome) →
    filter_by_property l pname value =
      .ok (l.filter (fun e => e.properties.lookup pname == some value)) := by
  intro l
  induction l with
  | nil => intro _; rfl
  | cons e rest ih =>
    intro h
    obtain ⟨w, hw⟩ := Option.isSome_iff_exists.mp (h e (List.mem_cons_self e rest))
    simp only [filter_by_property, hw,
      ih (fun x hx => h x (List.mem_cons_of_mem e hx)), except_bind_ok]
    rw [List.filter_cons]
    by_cases hwv : w = value
    · simp [hwv, hw]
    · simp [hwv, hw]

theorem map_execution_to_context_ok (s : Store) :
    ∀ l : List Execution,
    (∀ e ∈ l, s.get_contexts_by_execution e.id ≠ []) →
    ∃ cs, map_execution_to_context s l = .ok cs ∧
      ∀ cid, (cs.any (fun c => c.id == cid)) =
        (l.any (fun e =>
          match (s.get_contexts_by_execution e.id).head? with
          | some c => c.id == cid
          | none => false)) := by
  intro l
  induction l with
  | nil => exact fun _ => ⟨[], rfl, fun _ => rfl⟩
  | cons e rest ih =>
    intro h
    obtain ⟨c, ctail, hc⟩ :=
      List.exists_cons_of_ne_nil (h e (List.mem_cons_self e rest))
    obtain ⟨cs, hcs, hany⟩ := ih (fun x hx => h x (List.mem_cons_of_mem e hx))
    refine ⟨c :: cs, ?_, ?_⟩
    · simp only [map_execution_to_context, hc, List.head?_cons, hcs, except_bind_ok]
    · intro cid
      simp [List.any_cons, hany, hc]

theorem list_contexts_by_condition_ok (s : Store) (cond : Condition)
    (h2 : ∀ e ∈ s.get_executions, (e.properties.lookup "component_id").isSome)
    (h1 : ∃ e ∈ s.get_executions,
      e.properties.lookup "component_id" = some cond.component)
    (h3 : ∀ e ∈ s.get_executions,
      e.properties.lookup "component_id" = some cond.component →
      (e.properties.lookup cond.property_name).isSome)
    (h4 : ∀ e ∈ s.get_executions, s.get_contexts_by_execution e.id ≠ []) :
    ∃ cs, list_contexts_by_condition s cond = .ok cs ∧
      ∀ cid, (cs.any (fun c => c.id == cid)) =
        condition_holds_first_context s cond cid := by
  have hfilter1 : ∀ e ∈ s.get_executions.filter
      (fun e => e.properties.lookup "component_id" == some cond.component),
      (e.properties.lookup cond.property_name).isSome := by
    intro e he
    obtain ⟨hmem, hpred⟩ := List.mem_filter.mp he
    exact h3 e hmem (by simpa using hpred)
  have hfilter2 : ∀ e ∈ (s.get_executions.filter
        (fun e => e.properties.lookup "component_id" == some cond.component)).filter
      (fun e => e.properties.lookup cond.property_name == some cond.value),
      s.get_contexts_by_execution e.id ≠ [] := by
    intro e he
    exact h4 e (List.mem_filter.mp (List.mem_filter.mp he).1).1
  obtain ⟨cs, hcs, hany⟩ := map_execution_to_context_ok s _ hfilter2
  refine ⟨cs, ?_, ?_⟩
  · unfold list_contexts_by_condition filter_executions_by_condition
    rw [filter_executions_by_component_ok s cond.component h2 h1, except_bind_ok,
      filter_by_property_ok cond.property_name cond.value _ hfilter1, except_bind_ok]
    exact hcs
  · intro cid
    rw [hany cid]
    unfold condition_holds_first_context
    rw [List.any_filter, List.any_filter]
    congr 1
    funext e
    rw [Bool.and_assoc]

theorem map_id_contains (cs : List Context) (cid : Nat) :
    ((cs.map (fun c => c.id)).contains cid) = cs.any (fun c => c.id == cid) := by
  induction cs with
  | nil => rfl
  | cons c rest ih =>
    show ((c.id :: rest.map (fun c => c.id)).contains cid) = _
    rw [List.contains_cons, List.any_cons, ih]
    by_cases h : cid = c.id
    · simp [h]
    · simp [beq_eq_false_iff_ne.mpr h, beq_eq_false_iff_ne.mpr (Ne.symm h)]

theorem apply_conditions_ok (s : Store) :
    ∀ conds : List Condition,
    (∀ cond ∈ conds,
      (∃ e ∈ s.get_executions,
        e.properties.lookup "component_id" = some cond.component) ∧
      (∀ e ∈ s.get_executions,
        e.properties.lookup "component_id" = some cond.component →
        (e.properties.lookup cond.property_name).isSome)) →
    (∀ e ∈ s.get_executions, (e.properties.lookup "component_id").isSome) →
    (∀ e ∈ s.get_executions, s.get_contexts_by_execution e.id ≠ []) →
    ∀ acc : List Nat,
    apply_conditions s conds acc =
      .ok (acc.filter
        (fun cid =>
          conds.all (fun cond => condition_holds_first_context s cond cid))) := by
  intro conds
  induction conds with
  | nil =>
    intro _ _ _ acc
    simp [apply_conditions, List.all_nil, List.filter_true]
  | cons cond rest ih =>
    intro hC h2 h4 acc
    obtain ⟨cs, hcs, hany⟩ := list_contexts_by_condition_ok s cond h2
      (hC cond (List.mem_cons_self cond rest)).1
      (hC cond (List.mem_cons_self cond rest)).2 h4
    unfold apply_conditions
    rw [hcs, except_bind_ok,
      ih (fun c hc => hC c (List.mem_cons_of_mem cond hc)) h2 h4]
    congr 1
    rw [List.filter_filter]
    apply List.filter_congr
    intro cid _
    rw [List.all_cons, map_id_contains, hany cid]
    exact Bool.and_comm _ _

/-- Claim C7, amended: provided every execution belongs to at least one
context (otherwise the code's `get_contexts_by_execution(...)[0]` raises
`IndexError`), the surviving context-id set of `get_outcomes` is the initial
target set filtered by the conjunction of all conditions (logical AND),
where a context satisfies a condition when it is the FIRST context of some
execution of the named component having the named property equal to the
given value — not, as the claim stated, any context in which such an
execution lives; and two conditions on the same component and property with
different values yield an empty context set PROVIDED no two distinct
executions of that component share the same first context. -/
theorem c7_conditions_intersection (s : Store) (conds : List Condition)
    (h2 : ∀ e ∈ s.get_executions, (e.properties.lookup "component_id").isSome)
    (h4 : ∀ e ∈ s.get_executions, s.get_contexts_by_execution e.id ≠ [])
    (hC : ∀ cond ∈ conds,
      (∃ e ∈ s.get_executions,
        e.properties.lookup "component_id" = some cond.component) ∧
      (∀ e ∈ s.get_executions,
        e.properties.lookup "component_id" = some cond.component →
        (e.properties.lookup cond.property_name).isSome)) :
    get_outcomes_targets s [] [] conds =
      .ok ((s.get_contexts.map (fun c => c.id)).filter
        (fun cid =>
          conds.all (fun cond => condition_holds_first_context s cond cid))) ∧
    (∀ comp p v₁ v₂,
      conds = [⟨comp, p, v₁⟩, ⟨comp, p, v₂⟩] → v₁ ≠ v₂ →
      (∀ e ∈ s.get_executions, ∀ e' ∈ s.get_executions,
        e.properties.lookup "component_id" = some comp →
        e'.properties.lookup "component_id" = some comp →
        (s.get_contexts_by_execution e.id).head?.map (fun c => c.id) =
          (s.get_contexts_by_execution e'.id).head?.map (fun c => c.id) →
        e = e') →
      get_outcomes_targets s [] [] conds = .ok []) := by
  have main : get_outcomes_targets s [] [] conds =
      .ok ((s.get_contexts.map (fun c => c.id)).filter
        (fun cid =>
          conds.all (fun cond => condition_holds_first_context s cond cid))) := by
    unfold get_outcomes_targets
    rw [if_neg (fun h => h rfl), if_neg (fun h => h rfl), except_bind_ok]
    exact apply_conditions_ok s conds hC h2 h4 _
  refine ⟨main, ?_⟩
  intro comp p v₁ v₂ hconds hne huniq
  subst hconds
  rw [main]
  congr 1
  rw [List.filter_eq_nil_iff]
  intro cid _ hall
  rw [List.all_cons, List.all_cons, List.all_nil, Bool.and_true,
    Bool.and_eq_true] at hall
  obtain ⟨hone, htwo⟩ := hall
  unfold condition_holds_first_context at hone htwo
  rw [List.any_eq_true] at hone htwo
  obtain ⟨e, he, hpe⟩ := hone
  obtain ⟨e', he', hpe'⟩ := htwo
  rw [Bool.and_eq_true, Bool.and_eq_true] at hpe hpe'
  obtain ⟨⟨hce, hve⟩, hctxe⟩ := hpe
  obtain ⟨⟨hce', hve'⟩, hctxe'⟩ := hpe'
  have hce2 : e.properties.lookup "component_id" = some comp := by simpa using hce
  have hce2' : e'.properties.lookup "component_id" = some comp := by simpa using hce'
  have hve2 : e.properties.lookup p = some v₁ := by simpa using hve
  have hve2' : e'.properties.lookup p = some v₂ := by simpa using hve'
  have hmap : (s.get_contexts_by_execution e.id).head?.map (fun c => c.id) =
      some cid := by
    cases hh : (s.get_contexts_by_execution e.id).head? with
    | none => rw [hh] at hctxe; simp at hctxe
    | some c =>
      rw [hh] at hctxe
      simp at hctxe
      simp [hh, hctxe]
  have hmap' : (s.get_contexts_by_execution e'.id).head?.map (fun c => c.id) =
      some cid := by
    cases hh : (s.get_contexts_by_execution e'.id).head? with
    | none => rw [hh] at hctxe'; simp at hctxe'
    | some c =>
      rw [hh] at hctxe'
      simp at hctxe'
      simp [hh, hctxe']
  have heq := huniq e he e' he' hce2 hce2' (hmap.trans hmap'.symm)
  rw [← heq, hve2] at hve2'
  exact hne (Option.some.inj hve2')

/-- Witness for the amended C7: with one execution of `c1` per context (so
first contexts are distinct), the two conflicting conditions produce an
empty surviving context set. -/
theorem c7_conditions_intersection_witness :
    get_outcomes_targets c7wStore [] []
      [⟨"c1", "p", "a"⟩, ⟨"c1", "p", "b"⟩] = .ok [] := by
  have h := c7_conditions_intersection c7wStore
      [⟨"c1", "p", "a"⟩, ⟨"c1", "p", "b"⟩] (by decide) (by decide) (by decide)
  exact h.2 "c1" "p" "a" "b" rfl (by decide) (by decide)
